import Mathlib

/-!
Verification of the cross-chain USDC/USDT arbitrage bot (TypeScript, src/index.ts,
src/config.ts) against its natural-language specification.

Modelling conventions:
* JavaScript `number` arithmetic is modelled over `ℚ` wherever the computation
  stays finite; a separate extended type `JsNum` models the IEEE-754 special
  values (Infinity, NaN) for claims about division by a zero price.
* JavaScript `bigint` is modelled as `ℤ`.  BigInt division truncates toward
  zero (`Int.tdiv`); BigInt division by zero and exponentiation by a negative
  exponent throw `RangeError`, modelled with `Except String`.
* Token addresses are `String`s; the source compares them case-insensitively
  via `toLowerCase`, modelled by mapping `Char.toLower` over the string.
-/

/-- Case-insensitive normalisation used by the source for address comparison
(models `String.prototype.toLowerCase` on ASCII addresses). -/
def toLowercase (s : String) : String :=
  ⟨s.data.map Char.toLower⟩

/-- USDC token address constant from src/index.ts. -/
def USDC : String := "0xB97EF9Ef8734C71904D8002F8b6Bc66Dd9c48a6E"

/-- USDT token address constant from src/index.ts. -/
def USDT : String := "0xc7198437980c041c805A1EDcbA50c1Ce5db95118"

/-- `applySwapFee(amount, fee) = amount * (1 - fee)` from src/index.ts. -/
def applySwapFee (amount fee : ℚ) : ℚ :=
  amount * (1 - fee)

/-- `getSymbol` from src/index.ts: resolves a token address to a display symbol
by case-insensitive comparison with the USDC/USDT constants. -/
def getSymbol (address : String) : String :=
  if toLowercase address = toLowercase USDC then "USDC"
  else if toLowercase address = toLowercase USDT then "USDT"
  else "UNKNOWN"

/-- A pool quote as consumed by `simulateDirection`: token addresses and the
decimal price (token1 per token0). -/
structure PoolQuote where
  token0 : String
  token1 : String
  price : ℚ
deriving DecidableEq

/-- The argument record of `simulateDirection` in src/index.ts. -/
structure DirectionInput where
  startAmount : ℚ
  poolA : PoolQuote
  poolB : PoolQuote
  swapFeeA : ℚ
  swapFeeB : ℚ
  bridgeCostA : ℚ
  bridgeCostB : ℚ
  directionLabel : String
  tokenIn : String
  tokenOut : String
  minAmountOutFactor : ℚ
deriving DecidableEq

/-- The return record of `simulateDirection` in src/index.ts. -/
structure DirectionResult where
  directionLabel : String
  startAmount : ℚ
  finalAmount : ℚ
  profit : ℚ
  minAmountOut : ℚ
  tokenInSym : String
  tokenOutSym : String
deriving DecidableEq

/-- `simulateDirection` from src/index.ts: swap on pool A (multiply by price
when `poolA.token0` equals `tokenIn` case-insensitively, otherwise divide),
subtract `bridgeCostA`, swap on pool B (divide when `poolB.token0` equals
`tokenOut`, otherwise multiply), subtract `bridgeCostB`; profit is the final
amount minus the start amount and `minAmountOut = startAmount *
minAmountOutFactor`. -/
def simulateDirection (inp : DirectionInput) : DirectionResult :=
  let afterSwapA :=
    if toLowercase inp.poolA.token0 = toLowercase inp.tokenIn then
      applySwapFee (inp.startAmount * inp.poolA.price) inp.swapFeeA
    else
      applySwapFee (inp.startAmount / inp.poolA.price) inp.swapFeeA
  let afterBridgeA := afterSwapA - inp.bridgeCostA
  let afterSwapB :=
    if toLowercase inp.poolB.token0 = toLowercase inp.tokenOut then
      applySwapFee (afterBridgeA / inp.poolB.price) inp.swapFeeB
    else
      applySwapFee (afterBridgeA * inp.poolB.price) inp.swapFeeB
  let finalAmount := afterSwapB - inp.bridgeCostB
  let profit := finalAmount - inp.startAmount
  let minAmountOut := inp.startAmount * inp.minAmountOutFactor
  ⟨inp.directionLabel, inp.startAmount, finalAmount, profit, minAmountOut,
    getSymbol inp.tokenIn, getSymbol inp.tokenOut⟩

/-- JavaScript BigInt exponentiation `base ** exp`: throws `RangeError` when
the exponent is negative (as `10n ** BigInt(d0 - d1)` does in the source). -/
def bigintPow (base expn : ℤ) : Except String ℤ :=
  if expn < 0 then Except.error "RangeError: Exponent must be non-negative"
  else Except.ok (base ^ expn.toNat)

/-- `getPriceFromSqrtPriceX96BigInt` from src/index.ts:
`(sqrtPriceX96 ** 2 * 10 ** (decimalsToken0 - decimalsToken1)) / 2 ** 192`,
the power of ten computed with BigInt exponentiation (which throws on a
negative exponent) and the final division modelled exactly over `ℚ`. -/
def getPriceFromSqrtPriceX96BigInt (sqrtPriceX96 : ℤ)
    (decimalsToken0 decimalsToken1 : ℤ) : Except String ℚ := do
  let pow10 ← bigintPow 10 (decimalsToken0 - decimalsToken1)
  let numerator : ℤ := sqrtPriceX96 ^ 2 * pow10
  let denominator : ℤ := 2 ^ 192
  pure ((numerator : ℚ) / (denominator : ℚ))

/-- The two arbitrage cycle orientations evaluated by `simulateArbitrage`. -/
inductive ArbDirection
  | dirUSDC
  | dirUSDT
deriving DecidableEq

/-- The decision core of `simulateArbitrage` from src/index.ts: both
directions are simulated over the same two pool quotes (with the bridge-cost
assignment swapped), then direction 1 is executed when its profit exceeds the
threshold, else direction 2 when its profit exceeds the threshold, else no
execution.  The returned triple is (direction-1 result, direction-2 result,
executed direction). -/
def simulateArbitrage (pharaoh shadow : PoolQuote)
    (feePharaoh feeShadow bridgeUsdt bridgeUsdc startUsdc threshold : ℚ) :
    DirectionResult × DirectionResult × Option ArbDirection :=
  let dir1 := simulateDirection ⟨startUsdc, pharaoh, shadow, feePharaoh,
    feeShadow, bridgeUsdt, bridgeUsdc, "USDC→USDT→USDC", USDC, USDC, 995/1000⟩
  let dir2 := simulateDirection ⟨startUsdc, pharaoh, shadow, feePharaoh,
    feeShadow, bridgeUsdc, bridgeUsdt, "USDT→USDC→USDT", USDT, USDT, 995/1000⟩
  let executed : Option ArbDirection :=
    if dir1.profit > threshold then some ArbDirection.dirUSDC
    else if dir2.profit > threshold then some ArbDirection.dirUSDT
    else none
  (dir1, dir2, executed)

/-- Outcome of a run of the retry helper: the list of backoff sleeps performed
(in milliseconds, in order), the number of calls made to the wrapped
operation, and the final result. -/
structure RetryOutcome (ε α : Type) where
  sleeps : List ℕ
  calls : ℕ
  result : Except ε α

/-- Loop body of `retryAsync` from src/index.ts.  `callIdx` counts calls made
so far (the source's `attempt` counter equals `callIdx + 1` after the failure
of call `callIdx`); `remaining` is `maxRetries - callIdx`, so the source's
exit test `attempt > maxRetries` fires exactly when `remaining = 0`; the sleep
before the next call is `baseDelay * 2 ^ (attempt - 1) = baseDelay * 2 ^
callIdx`. -/
def retryGo (fn : ℕ → Except ε α) (baseDelay : ℕ) :
    ℕ → ℕ → List ℕ → RetryOutcome ε α
  | callIdx, remaining, sleeps =>
    match fn callIdx with
    | Except.ok v => ⟨sleeps.reverse, callIdx + 1, Except.ok v⟩
    | Except.error e =>
      match remaining with
      | 0 => ⟨sleeps.reverse, callIdx + 1, Except.error e⟩
      | r + 1 =>
        retryGo fn baseDelay (callIdx + 1) r (baseDelay * 2 ^ callIdx :: sleeps)

/-- `retryAsync(fn, maxRetries, baseDelay)` from src/index.ts, modelled
deterministically: `fn i` is the result of the i-th call of the wrapped
operation. -/
def retryAsync (fn : ℕ → Except ε α) (maxRetries baseDelay : ℕ) :
    RetryOutcome ε α :=
  retryGo fn baseDelay 0 maxRetries []

/-- Extended number type modelling the IEEE-754 double special values that
JavaScript arithmetic can produce (finite values stay exact rationals). -/
inductive JsNum
  | fin (q : ℚ)
  | posInf
  | negInf
  | nan
deriving DecidableEq

/-- JavaScript multiplication on `JsNum` (sign rules of IEEE-754, with
`Infinity * 0 = NaN`). -/
def jsMul : JsNum → JsNum → JsNum
  | JsNum.nan, _ => JsNum.nan
  | _, JsNum.nan => JsNum.nan
  | JsNum.fin a, JsNum.fin b => JsNum.fin (a * b)
  | JsNum.fin a, JsNum.posInf =>
    if 0 < a then JsNum.posInf else if a < 0 then JsNum.negInf else JsNum.nan
  | JsNum.fin a, JsNum.negInf =>
    if 0 < a then JsNum.negInf else if a < 0 then JsNum.posInf else JsNum.nan
  | JsNum.posInf, JsNum.fin b =>
    if 0 < b then JsNum.posInf else if b < 0 then JsNum.negInf else JsNum.nan
  | JsNum.negInf, JsNum.fin b =>
    if 0 < b then JsNum.negInf else if b < 0 then JsNum.posInf else JsNum.nan
  | JsNum.posInf, JsNum.posInf => JsNum.posInf
  | JsNum.posInf, JsNum.negInf => JsNum.negInf
  | JsNum.negInf, JsNum.posInf => JsNum.negInf
  | JsNum.negInf, JsNum.negInf => JsNum.posInf

/-- JavaScript division on `JsNum`: a nonzero finite value divided by 0 (the
positive zero of the source) gives a signed Infinity, `0 / 0 = NaN`, and a
finite value divided by an Infinity gives 0. -/
def jsDiv : JsNum → JsNum → JsNum
  | JsNum.nan, _ => JsNum.nan
  | _, JsNum.nan => JsNum.nan
  | JsNum.fin a, JsNum.fin b =>
    if b ≠ 0 then JsNum.fin (a / b)
    else if 0 < a then JsNum.posInf
    else if a < 0 then JsNum.negInf
    else JsNum.nan
  | JsNum.fin _, JsNum.posInf => JsNum.fin 0
  | JsNum.fin _, JsNum.negInf => JsNum.fin 0
  | JsNum.posInf, JsNum.fin b => if 0 ≤ b then JsNum.posInf else JsNum.negInf
  | JsNum.negInf, JsNum.fin b => if 0 ≤ b then JsNum.negInf else JsNum.posInf
  | JsNum.posInf, JsNum.posInf => JsNum.nan
  | JsNum.posInf, JsNum.negInf => JsNum.nan
  | JsNum.negInf, JsNum.posInf => JsNum.nan
  | JsNum.negInf, JsNum.negInf => JsNum.nan

/-- JavaScript subtraction on `JsNum`. -/
def jsSub : JsNum → JsNum → JsNum
  | JsNum.nan, _ => JsNum.nan
  | _, JsNum.nan => JsNum.nan
  | JsNum.fin a, JsNum.fin b => JsNum.fin (a - b)
  | JsNum.posInf, JsNum.fin _ => JsNum.posInf
  | JsNum.negInf, JsNum.fin _ => JsNum.negInf
  | JsNum.fin _, JsNum.posInf => JsNum.negInf
  | JsNum.fin _, JsNum.negInf => JsNum.posInf
  | JsNum.posInf, JsNum.posInf => JsNum.nan
  | JsNum.posInf, JsNum.negInf => JsNum.posInf
  | JsNum.negInf, JsNum.posInf => JsNum.negInf
  | JsNum.negInf, JsNum.negInf => JsNum.nan

/-- `applySwapFee` evaluated with JavaScript number semantics (the fee itself
is a finite literal). -/
def applySwapFeeJs (amount : JsNum) (fee : ℚ) : JsNum :=
  jsMul amount (JsNum.fin (1 - fee))

/-- `simulateDirection` from src/index.ts evaluated with JavaScript number
semantics (`JsNum`), exposing the special values the four arithmetic steps
produce; returns the pair (finalAmount, profit). -/
def simulateDirectionJs (inp : DirectionInput) : JsNum × JsNum :=
  let afterSwapA :=
    if toLowercase inp.poolA.token0 = toLowercase inp.tokenIn then
      applySwapFeeJs (jsMul (JsNum.fin inp.startAmount) (JsNum.fin inp.poolA.price))
        inp.swapFeeA
    else
      applySwapFeeJs (jsDiv (JsNum.fin inp.startAmount) (JsNum.fin inp.poolA.price))
        inp.swapFeeA
  let afterBridgeA := jsSub afterSwapA (JsNum.fin inp.bridgeCostA)
  let afterSwapB :=
    if toLowercase inp.poolB.token0 = toLowercase inp.tokenOut then
      applySwapFeeJs (jsDiv afterBridgeA (JsNum.fin inp.poolB.price)) inp.swapFeeB
    else
      applySwapFeeJs (jsMul afterBridgeA (JsNum.fin inp.poolB.price)) inp.swapFeeB
  let finalAmount := jsSub afterSwapB (JsNum.fin inp.bridgeCostB)
  let profit := jsSub finalAmount (JsNum.fin inp.startAmount)
  (finalAmount, profit)

/-- 6-decimal fixed-point conversion `bn` from src/index.ts
(`parseUnits(num.toString(), 6)`): scales by `10 ^ 6` and truncates to an
integer.  Exact for every value whose decimal representation has at most six
fractional digits, which covers all amounts, prices, fees and slippage values
exchanged by the mock pipeline. -/
def bn (q : ℚ) : ℤ :=
  ⌊q * 1000000⌋

/-- `bnToNum` from src/index.ts (`formatUnits(bnVal, 6)`): interprets a
fixed-point integer back as a decimal. -/
def bnToNum (z : ℤ) : ℚ :=
  (z : ℚ) / 1000000

/-- `bnMul` from src/index.ts: fixed-point multiply `(a * b) / 10 ^ 6` with
BigInt division (truncation toward zero). -/
def bnMul (a b : ℤ) : ℤ :=
  Int.tdiv (a * b) 1000000

/-- `bnDiv` from src/index.ts: fixed-point divide `(a * 10 ^ 6) / b` with
BigInt division; JavaScript BigInt division by zero throws `RangeError`. -/
def bnDiv (a b : ℤ) : Except String ℤ :=
  if b = 0 then Except.error "RangeError: Division by zero"
  else Except.ok (Int.tdiv (a * 1000000) b)

/-- `mockSwap` from src/index.ts (numeric core; logging elided): converts the
input amount and price to 6-decimal fixed point, applies the price only when
the tokens differ (multiplying when the input token is USDC, else dividing),
then attenuates by the fee factor `1 - fee` and by the simulated slippage
fraction, all in fixed-point bigint arithmetic. -/
def mockSwap (fromToken toToken : String)
    (amountIn price fee simulatedSlippage : ℚ) : Except String ℚ := do
  let amountInBN := bn amountIn
  let priceBN := bn price
  let amountOutBeforeFeeBN ←
    if toLowercase fromToken = toLowercase toToken then
      pure amountInBN
    else if toLowercase fromToken = toLowercase USDC then
      pure (bnMul amountInBN priceBN)
    else
      bnDiv amountInBN priceBN
  let feeBN := bn (1 - fee)
  let amountOutAfterFeeBN := bnMul amountOutBeforeFeeBN feeBN
  let slippageBN := bnMul amountOutAfterFeeBN (bn simulatedSlippage)
  let finalAmountOutBN := amountOutAfterFeeBN - slippageBN
  pure (bnToNum finalAmountOutBN)

/-- Which swap/bridge handler an execution-pipeline stage resolved to. -/
inductive HandlerTag
  | mockSwapTag
  | mockCcipTag
  | mockStargateTag
  | realSwapTag
  | realCcipTag
  | realStargateTag
deriving DecidableEq

/-- Whether a handler is one of the simulated (mock) handlers. -/
def HandlerTag.isMock : HandlerTag → Bool
  | HandlerTag.mockSwapTag => true
  | HandlerTag.mockCcipTag => true
  | HandlerTag.mockStargateTag => true
  | HandlerTag.realSwapTag => false
  | HandlerTag.realCcipTag => false
  | HandlerTag.realStargateTag => false

/-- `realSwap` from src/index.ts: wraps an unimplemented body (which always
throws) in `retryAsync` with the default retry policy. -/
def realSwapResult : Except String ℚ :=
  (retryAsync (fun _ => Except.error "realSwap not implemented") 3 1000).result

/-- `realCcipBridge` from src/index.ts: unimplemented body under `retryAsync`. -/
def realCcipResult : Except String ℚ :=
  (retryAsync (fun _ => Except.error "realCcipBridge not implemented") 3 1000).result

/-- `realStargateBridge` from src/index.ts: unimplemented body under
`retryAsync`. -/
def realStargateResult : Except String ℚ :=
  (retryAsync (fun _ => Except.error "realStargateBridge not implemented") 3
    1000).result

/-- A swap stage of `simulateExecution`: dispatches on `LIVE_MODE` to the real
handler or to `mockSwap` (with the default simulated slippage 0.0005). -/
def swapStage (live : Bool) (fromToken toToken : String)
    (amountIn price fee : ℚ) : HandlerTag × Except String ℚ :=
  if live then (HandlerTag.realSwapTag, realSwapResult)
  else (HandlerTag.mockSwapTag, mockSwap fromToken toToken amountIn price fee
    (1/2000))

/-- A CCIP bridge stage: real handler in live mode, else `mockCcipBridge`
whose received amount is the input minus the default simulated cost 0.1. -/
def ccipStage (live : Bool) (amount : ℚ) : HandlerTag × Except String ℚ :=
  if live then (HandlerTag.realCcipTag, realCcipResult)
  else (HandlerTag.mockCcipTag, Except.ok (amount - 1/10))

/-- A Stargate bridge stage: real handler in live mode, else
`mockStargateBridge` (input minus the default simulated cost 0.1). -/
def stargateStage (live : Bool) (amount : ℚ) : HandlerTag × Except String ℚ :=
  if live then (HandlerTag.realStargateTag, realStargateResult)
  else (HandlerTag.mockStargateTag, Except.ok (amount - 1/10))

/-- `simulateExecution` from src/index.ts: the four-stage pipeline
(swap, bridge, swap, bridge) for the chosen direction, each stage dispatching
on `LIVE_MODE`; a stage failure aborts the remaining stages.  Returns the
trace of handlers actually invoked together with the final amount or the
error. -/
def simulateExecution (live : Bool) (direction : ArbDirection)
    (pharaohPrice shadowPrice startUsdc feePharaoh feeShadow : ℚ) :
    List HandlerTag × Except String ℚ :=
  match direction with
  | ArbDirection.dirUSDC =>
    let s1 := swapStage live USDC USDT startUsdc pharaohPrice feePharaoh
    match s1.2 with
    | Except.error e => ([s1.1], Except.error e)
    | Except.ok a1 =>
      let b1 := stargateStage live a1
      match b1.2 with
      | Except.error e => ([s1.1, b1.1], Except.error e)
      | Except.ok a2 =>
        let s2 := swapStage live USDT USDC a2 shadowPrice feeShadow
        match s2.2 with
        | Except.error e => ([s1.1, b1.1, s2.1], Except.error e)
        | Except.ok a3 =>
          let b2 := ccipStage live a3
          match b2.2 with
          | Except.error e => ([s1.1, b1.1, s2.1, b2.1], Except.error e)
          | Except.ok a4 => ([s1.1, b1.1, s2.1, b2.1], Except.ok a4)
  | ArbDirection.dirUSDT =>
    let s1 := swapStage live USDT USDC startUsdc pharaohPrice feePharaoh
    match s1.2 with
    | Except.error e => ([s1.1], Except.error e)
    | Except.ok a1 =>
      let b1 := ccipStage live a1
      match b1.2 with
      | Except.error e => ([s1.1, b1.1], Except.error e)
      | Except.ok a2 =>
        let s2 := swapStage live USDC USDT a2 shadowPrice feeShadow
        match s2.2 with
        | Except.error e => ([s1.1, b1.1, s2.1], Except.error e)
        | Except.ok a3 =>
          let b2 := stargateStage live a3
          match b2.2 with
          | Except.error e => ([s1.1, b1.1, s2.1, b2.1], Except.error e)
          | Except.ok a4 => ([s1.1, b1.1, s2.1, b2.1], Except.ok a4)

/-- C9: the fee model is the identity at fee 0 and, for a positive amount,
strictly decreasing in the fee fraction over `[0, 1)`. -/
theorem applySwapFee_identity_and_strict_decrease (a f₁ f₂ : ℚ) :
    applySwapFee a 0 = a ∧
    (0 < a → 0 ≤ f₁ → f₁ < f₂ → f₂ < 1 → applySwapFee a f₂ < applySwapFee a f₁) := by
  constructor
  · simp [applySwapFee]
  · intro ha _ hlt _
    have h : (1 : ℚ) - f₂ < 1 - f₁ := by linarith
    exact mul_lt_mul_of_pos_left h ha

/-- Witness for C9 at a concrete amount and fee pair. -/
theorem applySwapFee_identity_and_strict_decrease_witness :
    applySwapFee 2 0 = 2 ∧ applySwapFee 2 (1/2) < applySwapFee 2 0 :=
  ⟨(applySwapFee_identity_and_strict_decrease 2 0 (1/2)).1,
    (applySwapFee_identity_and_strict_decrease 2 0 (1/2)).2
      (by norm_num) (by norm_num) (by norm_num) (by norm_num)⟩

/-- C7: at sqrt price `2 ^ 96` with equal token decimals the converter returns
exactly 1, hence within `1e-6` of 1. -/
theorem getPrice_unit_sqrt_equal_decimals_one (d : ℤ) :
    ∃ q : ℚ, getPriceFromSqrtPriceX96BigInt (2 ^ 96) d d = Except.ok q ∧
      |q - 1| ≤ 1 / 1000000 := by
  refine ⟨1, ?_, by norm_num⟩
  have hsub : d - d = 0 := sub_self d
  simp only [getPriceFromSqrtPriceX96BigInt, bigintPow, hsub]
  norm_num [Except.bind]

/-- C4: with `decimalsToken0 = 6 < 18 = decimalsToken1` the converter throws a
`RangeError` (BigInt exponentiation rejects the negative exponent) instead of
returning a value. -/
theorem getPrice_negative_exponent_throws :
    getPriceFromSqrtPriceX96BigInt (2 ^ 96) 6 18 =
      Except.error "RangeError: Exponent must be non-negative" := by
  rfl

/-- C1: `simulateDirection` computes its result by exactly the four-step
composition from the spec (swap on pool A, bridge, swap on pool B, bridge),
with `profit = finalAmount - startAmount`, `minAmountOut = startAmount *
minAmountOutFactor`, and `minAmountOutFactor` having no effect on the final
amount or profit. -/
theorem simulateDirection_four_step_composition (inp : DirectionInput) :
    (simulateDirection inp).finalAmount =
      (if toLowercase inp.poolB.token0 = toLowercase inp.tokenOut then
        applySwapFee
          (((if toLowercase inp.poolA.token0 = toLowercase inp.tokenIn then
              applySwapFee (inp.startAmount * inp.poolA.price) inp.swapFeeA
            else
              applySwapFee (inp.startAmount / inp.poolA.price) inp.swapFeeA)
            - inp.bridgeCostA) / inp.poolB.price) inp.swapFeeB
      else
        applySwapFee
          (((if toLowercase inp.poolA.token0 = toLowercase inp.tokenIn then
              applySwapFee (inp.startAmount * inp.poolA.price) inp.swapFeeA
            else
              applySwapFee (inp.startAmount / inp.poolA.price) inp.swapFeeA)
            - inp.bridgeCostA) * inp.poolB.price) inp.swapFeeB)
      - inp.bridgeCostB ∧
    (simulateDirection inp).profit = (simulateDirection inp).finalAmount - inp.startAmount ∧
    (simulateDirection inp).minAmountOut = inp.startAmount * inp.minAmountOutFactor ∧
    ∀ g : ℚ,
      (simulateDirection ⟨inp.startAmount, inp.poolA, inp.poolB, inp.swapFeeA,
        inp.swapFeeB, inp.bridgeCostA, inp.bridgeCostB, inp.directionLabel,
        inp.tokenIn, inp.tokenOut, g⟩).finalAmount = (simulateDirection inp).finalAmount ∧
      (simulateDirection ⟨inp.startAmount, inp.poolA, inp.poolB, inp.swapFeeA,
        inp.swapFeeB, inp.bridgeCostA, inp.bridgeCostB, inp.directionLabel,
        inp.tokenIn, inp.tokenOut, g⟩).profit = (simulateDirection inp).profit :=
  ⟨rfl, rfl, rfl, fun _ => ⟨rfl, rfl⟩⟩

/-- C8 counterexample: a DirectionInput with reciprocal prices (product 1),
zero fees and zero bridge costs whose simulated profit is nonzero, because the
two legs take multiply-then-divide (both pool token0 fields match). -/
theorem simulateDirection_reciprocal_prices_nonzero_profit_cex :
    ((⟨1, ⟨"0xa", "0xb", 2⟩, ⟨"0xa", "0xb", 1/2⟩, 0, 0, 0, 0, "cex", "0xA",
        "0xA", 1⟩ : DirectionInput).poolA.price *
      (⟨1, ⟨"0xa", "0xb", 2⟩, ⟨"0xa", "0xb", 1/2⟩, 0, 0, 0, 0, "cex", "0xA",
        "0xA", 1⟩ : DirectionInput).poolB.price = 1) ∧
    (simulateDirection ⟨1, ⟨"0xa", "0xb", 2⟩, ⟨"0xa", "0xb", 1/2⟩, 0, 0, 0, 0,
      "cex", "0xA", "0xA", 1⟩).profit ≠ 0 := by
  have hA : toLowercase "0xa" = toLowercase "0xA" := by decide
  constructor
  · norm_num
  · norm_num [simulateDirection, applySwapFee, hA]

/-- C8 amended: with reciprocal prices, zero fees, zero bridge costs, and the
two legs taking aligned operations (pool A multiplies exactly when pool B
multiplies, i.e. the token0 matches are opposite), the round-trip profit is
exactly zero. -/
theorem simulateDirection_reciprocal_round_trip_zero_profit (inp : DirectionInput)
    (hp : inp.poolA.price * inp.poolB.price = 1)
    (hfA : inp.swapFeeA = 0) (hfB : inp.swapFeeB = 0)
    (hbA : inp.bridgeCostA = 0) (hbB : inp.bridgeCostB = 0)
    (hbranch : (toLowercase inp.poolA.token0 = toLowercase inp.tokenIn) ↔
      ¬ (toLowercase inp.poolB.token0 = toLowercase inp.tokenOut)) :
    (simulateDirection inp).profit = 0 := by
  have hA0 : inp.poolA.price ≠ 0 := left_ne_zero_of_mul_eq_one hp
  by_cases hA : toLowercase inp.poolA.token0 = toLowercase inp.tokenIn
  · have hB : ¬ toLowercase inp.poolB.token0 = toLowercase inp.tokenOut :=
      hbranch.mp hA
    simp only [simulateDirection, applySwapFee, hfA, hfB, hbA, hbB,
      if_pos hA, if_neg hB, sub_zero, mul_one]
    linear_combination inp.startAmount * hp
  · have hB : toLowercase inp.poolB.token0 = toLowercase inp.tokenOut := by
      by_contra hB
      exact hA (hbranch.mpr hB)
    simp only [simulateDirection, applySwapFee, hfA, hfB, hbA, hbB,
      if_neg hA, if_pos hB, sub_zero, mul_one]
    rw [div_div, hp, div_one, sub_self]

/-- Witness for the amended C8 at a concrete multiply-multiply input. -/
theorem simulateDirection_reciprocal_round_trip_zero_profit_witness :
    (simulateDirection ⟨1, ⟨"0xA", "0xB", 2⟩, ⟨"0xB", "0xA", 1/2⟩, 0, 0, 0, 0,
      "w", "0xa", "0xa", 1⟩).profit = 0 :=
  simulateDirection_reciprocal_round_trip_zero_profit _ (by norm_num) rfl rfl
    rfl rfl (by decide)

/-- C3: the evaluator selects by fixed deterministic order: direction 1 is
executed whenever its profit strictly exceeds the threshold (regardless of
direction 2), otherwise direction 2 when its profit exceeds the threshold,
otherwise nothing is executed; never both. -/
theorem simulateArbitrage_fixed_order_selection (pharaoh shadow : PoolQuote)
    (fp fs bt bc s t : ℚ) :
    ((simulateArbitrage pharaoh shadow fp fs bt bc s t).1.profit > t →
      (simulateArbitrage pharaoh shadow fp fs bt bc s t).2.2 =
        some ArbDirection.dirUSDC) ∧
    (¬ (simulateArbitrage pharaoh shadow fp fs bt bc s t).1.profit > t →
      (simulateArbitrage pharaoh shadow fp fs bt bc s t).2.1.profit > t →
      (simulateArbitrage pharaoh shadow fp fs bt bc s t).2.2 =
        some ArbDirection.dirUSDT) ∧
    (¬ (simulateArbitrage pharaoh shadow fp fs bt bc s t).1.profit > t →
      ¬ (simulateArbitrage pharaoh shadow fp fs bt bc s t).2.1.profit > t →
      (simulateArbitrage pharaoh shadow fp fs bt bc s t).2.2 = none) ∧
    ¬ ((simulateArbitrage pharaoh shadow fp fs bt bc s t).2.2 =
        some ArbDirection.dirUSDC ∧
      (simulateArbitrage pharaoh shadow fp fs bt bc s t).2.2 =
        some ArbDirection.dirUSDT) := by
  simp only [simulateArbitrage]
  split_ifs with h1 h2 <;> simp_all

/-- Witness for C3: direction 1 clears the threshold and is executed even
though direction 2 has strictly higher profit. -/
theorem simulateArbitrage_fixed_order_selection_witness :
    (simulateArbitrage ⟨USDC, USDT, 1⟩ ⟨USDT, USDC, 19/20⟩ 0 0 0 0 10
      (-1)).1.profit > -1 ∧
    (simulateArbitrage ⟨USDC, USDT, 1⟩ ⟨USDT, USDC, 19/20⟩ 0 0 0 0 10
      (-1)).2.1.profit >
      (simulateArbitrage ⟨USDC, USDT, 1⟩ ⟨USDT, USDC, 19/20⟩ 0 0 0 0 10
        (-1)).1.profit ∧
    (simulateArbitrage ⟨USDC, USDT, 1⟩ ⟨USDT, USDC, 19/20⟩ 0 0 0 0 10
      (-1)).2.2 = some ArbDirection.dirUSDC := by
  have hne₁ : ¬ (toLowercase USDT = toLowercase USDC) := by decide
  have hne₂ : ¬ (toLowercase USDC = toLowercase USDT) := by decide
  have h1 : (simulateArbitrage ⟨USDC, USDT, 1⟩ ⟨USDT, USDC, 19/20⟩ 0 0 0 0 10
      (-1)).1.profit = -(1/2) := by
    norm_num [simulateArbitrage, simulateDirection, applySwapFee, hne₁, hne₂]
  have h2 : (simulateArbitrage ⟨USDC, USDT, 1⟩ ⟨USDT, USDC, 19/20⟩ 0 0 0 0 10
      (-1)).2.1.profit = 10/19 := by
    norm_num [simulateArbitrage, simulateDirection, applySwapFee, hne₁, hne₂]
  refine ⟨?_, ?_, (simulateArbitrage_fixed_order_selection _ _ 0 0 0 0 10 (-1)).1 ?_⟩
  · rw [h1]; norm_num
  · rw [h1, h2]; norm_num
  · rw [h1]; norm_num

/-- C2 counterexample: with the source's defaults (`maxRetries = 3`,
`baseDelay = 1000`) and an always-failing operation (as the unimplemented
live handlers are), the wrapper does not make 3 attempts at the underlying
call — it makes 4. -/
theorem retryAsync_attempt_count_cex :
    (retryAsync (fun i => (Except.error i : Except ℕ Unit)) 3 1000).calls ≠ 3 := by
  decide

/-- C2 amended: for an always-failing operation the wrapper makes exactly 4
attempts at the underlying call (the initial call plus 3 retries), sleeping
1000ms, 2000ms and 4000ms between consecutive attempts, and re-raises the
error of the last (4th) attempt. -/
theorem retryAsync_four_attempts_backoff (fn : ℕ → Except ε α) (e : ℕ → ε)
    (hfail : ∀ i, fn i = Except.error (e i)) :
    retryAsync fn 3 1000 = ⟨[1000, 2000, 4000], 4, Except.error (e 3)⟩ := by
  simp only [retryAsync, retryGo, hfail 0, hfail 1, hfail 2, hfail 3]
  norm_num

/-- Witness for the amended C2 with a concrete always-failing operation whose
errors identify the call index (so the re-raised error is visibly the last
one). -/
theorem retryAsync_four_attempts_backoff_witness :
    retryAsync (fun i => (Except.error i : Except ℕ Unit)) 3 1000 =
      ⟨[1000, 2000, 4000], 4, Except.error 3⟩ :=
  retryAsync_four_attempts_backoff (fun i => (Except.error i : Except ℕ Unit))
    (fun i => i) (fun _ => rfl)

/-- C5: at a pool-A price of 0 with the division branch taken, the direction
simulation does not signal any arithmetic-domain error: evaluated with
JavaScript number semantics it silently returns Infinity for both the final
amount and the profit (startAmount 10, swap fees 0.0005, bridge costs 0.1,
pool-B price 1 on the multiplication branch). -/
theorem simulateDirection_zero_price_silent_infinity :
    simulateDirectionJs ⟨10, ⟨"0xb", "0xa", 0⟩, ⟨"0xb", "0xa", 1⟩, 1/2000,
      1/2000, 1/10, 1/10, "dir", "0xa", "0xa", 995/1000⟩ =
      (JsNum.posInf, JsNum.posInf) := by
  have hne : ¬ (toLowercase "0xb" = toLowercase "0xa") := by decide
  simp only [simulateDirectionJs, applySwapFeeJs, if_neg hne]
  norm_num [jsDiv, jsMul, jsSub]

/-- C10: when the two tokens of a mock swap are equal up to case, the price is
never applied: the pre-fee fixed-point output equals the input, the swap
cannot fail, the result is the input attenuated by the fee factor and then by
the slippage fraction in 6-decimal fixed point, and the price argument is
irrelevant. -/
theorem mockSwap_same_token_price_free (fromToken toToken : String)
    (amountIn fee sl p₁ p₂ : ℚ)
    (h : toLowercase fromToken = toLowercase toToken) :
    mockSwap fromToken toToken amountIn p₁ fee sl =
      Except.ok (bnToNum (bnMul (bn amountIn) (bn (1 - fee)) -
        bnMul (bnMul (bn amountIn) (bn (1 - fee))) (bn sl))) ∧
    mockSwap fromToken toToken amountIn p₁ fee sl =
      mockSwap fromToken toToken amountIn p₂ fee sl := by
  constructor
  · simp only [mockSwap, if_pos h]
    rfl
  · simp only [mockSwap, if_pos h]

/-- Witness for C10 with case-differing spellings of the same token address
and two different prices. -/
theorem mockSwap_same_token_price_free_witness :
    mockSwap "0xAbC" "0xabc" 10 3 (1/2000) (1/2000) =
      Except.ok (bnToNum (bnMul (bn 10) (bn (1 - 1/2000)) -
        bnMul (bnMul (bn 10) (bn (1 - 1/2000))) (bn (1/2000)))) ∧
    mockSwap "0xAbC" "0xabc" 10 3 (1/2000) (1/2000) =
      mockSwap "0xAbC" "0xabc" 10 7 (1/2000) (1/2000) :=
  mockSwap_same_token_price_free "0xAbC" "0xabc" 10 (1/2000) (1/2000) 3 7
    (by decide)

/-- Reduction helper: binding a successful `Except` runs the continuation. -/
theorem except_bind_ok_eq (a : α) (f : α → Except ε β) :
    (Except.ok a : Except ε α) >>= f = f a := rfl

/-- Reduction helper: binding a failed `Except` propagates the error. -/
theorem except_bind_error_eq (e : ε) (f : α → Except ε β) :
    (Except.error e : Except ε α) >>= f = Except.error e := rfl

/-- Reduction helper: `Except.pure` is `Except.ok`. -/
theorem except_pure_eq_ok (a : α) : (Except.pure a : Except ε α) = Except.ok a := rfl

/-- C6 counterexample: in Simulated mode (live = false) the pipeline CAN
fail: with a Shadow pool price of 0 the third stage's mock swap divides by a
zero fixed-point price and the BigInt division throws, so the simulated path
reports an error (pharaoh price 1, start 10, config default fees). -/
theorem simulateExecution_zero_price_failure_cex :
    (simulateExecution false ArbDirection.dirUSDC 1 0 10 (1/20000)
      (1/10000)).2 = Except.error "RangeError: Division by zero" := by
  have hne : ¬ (toLowercase USDC = toLowercase USDT) := by decide
  have hne2 : ¬ (toLowercase USDT = toLowercase USDC) := by decide
  have hb0 : bn 0 = 0 := by norm_num [bn]
  simp only [simulateExecution, swapStage, stargateStage, ccipStage, mockSwap,
    bnDiv, hb0, if_neg hne, if_neg hne2, Bool.false_eq_true, if_false,
    eq_self_iff_true, if_true, pure, except_pure_eq_ok, except_bind_ok_eq,
    except_bind_error_eq]

/-- C6 amended: in Simulated mode no live collaborator is ever invoked —
unconditionally, for every input and also on failing runs every executed
stage resolves via a mock handler — and the pipeline succeeds whenever the
6-decimal fixed-point rendering of each pool price is nonzero (the only
simulated failure mode being the BigInt division by a zero fixed-point price
exhibited in the counterexample). -/
theorem simulateExecution_simulated_mode_mock_only (direction : ArbDirection)
    (pharaohPrice shadowPrice startUsdc feePharaoh feeShadow : ℚ) :
    (simulateExecution false direction pharaohPrice shadowPrice startUsdc
      feePharaoh feeShadow).1.all HandlerTag.isMock = true ∧
    (bn pharaohPrice ≠ 0 → bn shadowPrice ≠ 0 →
      ∃ q, (simulateExecution false direction pharaohPrice shadowPrice
        startUsdc feePharaoh feeShadow).2 = Except.ok q) := by
  have hne : ¬ (toLowercase USDC = toLowercase USDT) := by decide
  have hne2 : ¬ (toLowercase USDT = toLowercase USDC) := by decide
  cases direction
  case dirUSDC =>
    constructor
    · simp only [simulateExecution, swapStage, stargateStage, ccipStage,
        Bool.false_eq_true, if_false]
      split
      · rfl
      · split
        · rfl
        · rfl
    · intro hp hs
      simp only [simulateExecution, swapStage, stargateStage, ccipStage,
        mockSwap, bnDiv, if_neg hne, if_neg hne2, if_neg hs,
        Bool.false_eq_true, if_false, eq_self_iff_true, if_true, pure,
        except_pure_eq_ok, except_bind_ok_eq]
      exact ⟨_, rfl⟩
  case dirUSDT =>
    constructor
    · simp only [simulateExecution, swapStage, stargateStage, ccipStage,
        Bool.false_eq_true, if_false]
      split
      · rfl
      · split
        · rfl
        · rfl
    · intro hp hs
      simp only [simulateExecution, swapStage, stargateStage, ccipStage,
        mockSwap, bnDiv, if_neg hne, if_neg hne2, if_neg hp,
        Bool.false_eq_true, if_false, eq_self_iff_true, if_true, pure,
        except_pure_eq_ok, except_bind_ok_eq]
      exact ⟨_, rfl⟩

/-- Witness for the amended C6 at unit prices in direction USDC, discharging
the nonzero fixed-point price hypotheses of the success conjunct. -/
theorem simulateExecution_simulated_mode_mock_only_witness :
    (simulateExecution false ArbDirection.dirUSDC 1 1 10 (1/20000)
      (1/10000)).1.all HandlerTag.isMock = true ∧
    ∃ q, (simulateExecution false ArbDirection.dirUSDC 1 1 10 (1/20000)
      (1/10000)).2 = Except.ok q :=
  ⟨(simulateExecution_simulated_mode_mock_only ArbDirection.dirUSDC 1 1 10
      (1/20000) (1/10000)).1,
    (simulateExecution_simulated_mode_mock_only ArbDirection.dirUSDC 1 1 10
      (1/20000) (1/10000)).2 (by norm_num [bn]) (by norm_num [bn])⟩
